import Mathlib

/-!
# Verification of the iMessage MCP server query/mapping layer

Shallow embedding of `src/lib/utils.ts` and `src/lib/database.ts`.
JavaScript numbers are modelled as rationals (`ℚ`), JavaScript strings as
`String` or `List Char`, `null`/`undefined` by `Option` or a dedicated
inductive.  A JavaScript `Date` is modelled by its `getTime()` value:
milliseconds since the Unix epoch, as a rational.  Database tables are
modelled as lists of raw row records, one SQL query as
filter–sort–take–map over them, and a prepared statement as its SQL text
plus its positional parameter list.
-/

namespace IMessage

/-! ## Timestamp translator (`utils.ts`) -/

/-- `COCOA_EPOCH_DIFF` from `utils.ts`: seconds between the Unix epoch
(1970-01-01) and Apple's Cocoa epoch (2001-01-01). -/
def COCOA_EPOCH_DIFF : ℚ := 978307200

/-- `cocoaTimestampToDate` from `utils.ts`.  Input: a store-native Cocoa
timestamp (seconds or nanoseconds since 2001-01-01).  Output: the wall-clock
time as milliseconds since the Unix epoch (the `getTime()` value of the
`Date` the source constructs). -/
def cocoaTimestampToDate (timestamp : ℚ) : ℚ :=
  let t := if timestamp > 10 ^ 12 then timestamp / 10 ^ 9 else timestamp
  (t + COCOA_EPOCH_DIFF) * 1000

/-- `dateToCocoaTimestamp` from `utils.ts`.  Input: a wall-clock time as
milliseconds since the Unix epoch.  Output: nanoseconds since 2001-01-01. -/
def dateToCocoaTimestamp (dateMs : ℚ) : ℚ :=
  let unixSeconds := dateMs / 1000
  (unixSeconds - COCOA_EPOCH_DIFF) * 10 ^ 9

/-- `hoursAgoToCocoaTimestamp` from `utils.ts`, with `Date.now()` made an
explicit parameter `now` (milliseconds since the Unix epoch). -/
def hoursAgoToCocoaTimestamp (now hours : ℚ) : ℚ :=
  let cutoffTime := now - hours * 60 * 60 * 1000
  (cutoffTime / 1000 - COCOA_EPOCH_DIFF) * 10 ^ 9

/-- `daysAgoToCocoaTimestamp` from `utils.ts`, with `Date.now()` made an
explicit parameter `now` (milliseconds since the Unix epoch). -/
def daysAgoToCocoaTimestamp (now days : ℚ) : ℚ :=
  let cutoffTime := now - days * 24 * 60 * 60 * 1000
  (cutoffTime / 1000 - COCOA_EPOCH_DIFF) * 10 ^ 9

/-! ## Parameter normalizers (`utils.ts`) -/

/-- A JavaScript `number | undefined | null` argument, as received by the
normalizers (the source tests both `=== undefined` and `=== null`). -/
inductive NumParam where
  | undef : NumParam
  | null : NumParam
  | num (v : ℚ) : NumParam

/-- `normalizeLimit` from `utils.ts`: missing/`null` → default; `≤ 0` →
default; `> max` → clamp to max; otherwise `Math.floor`. -/
def normalizeLimit : NumParam → ℚ → ℚ → ℚ
  | .undef, defaultLimit, _ => defaultLimit
  | .null, defaultLimit, _ => defaultLimit
  | .num v, defaultLimit, maxLimit =>
    if v ≤ 0 then defaultLimit
    else if v > maxLimit then maxLimit
    else (⌊v⌋ : ℚ)

/-- `normalizeHours` from `utils.ts`: same policy, but the in-range value is
passed through unmodified. -/
def normalizeHours : NumParam → ℚ → ℚ → ℚ
  | .undef, defaultHours, _ => defaultHours
  | .null, defaultHours, _ => defaultHours
  | .num v, defaultHours, maxHours =>
    if v ≤ 0 then defaultHours
    else if v > maxHours then maxHours
    else v

/-- `normalizeDays` from `utils.ts`: same policy as `normalizeHours`. -/
def normalizeDays : NumParam → ℚ → ℚ → ℚ
  | .undef, defaultDays, _ => defaultDays
  | .null, defaultDays, _ => defaultDays
  | .num v, defaultDays, maxDays =>
    if v ≤ 0 then defaultDays
    else if v > maxDays then maxDays
    else v

/-! ## Contact matcher (`utils.ts`) -/

/-- The character class kept by `phone.replace(/[^\d+]/g, "")` in
`formatPhoneNumber`: the regex removes every character that is neither a
digit nor `'+'`, so every `'+'` (at any position) survives. -/
def isPhoneChar (c : Char) : Bool := c.isDigit || c == '+'

/-- The `cleaned` value of `formatPhoneNumber`: the input with every
character other than digits and `'+'` removed. -/
def cleanPhone (s : List Char) : List Char := s.filter isPhoneChar

/-- `formatPhoneNumber` from `utils.ts`, on JS strings modelled as
`List Char`.  `startsWith "1"` / `startsWith "+"` on the cleaned string are
expressed via `List.head?`. -/
def formatPhoneNumber (phone : List Char) : List Char :=
  let cleaned := cleanPhone phone
  if cleaned.length = 11 ∧ cleaned.head? = some '1' then '+' :: cleaned
  else if cleaned.length = 10 then '+' :: '1' :: cleaned
  else if cleaned.head? = some '+' then cleaned
  else phone

/-- `formatPhoneNumber` wrapped on `String`, for use in the query layer. -/
def formatPhoneNumberStr (s : String) : String :=
  String.mk (formatPhoneNumber s.toList)

/-- The stripping step exactly as C4's words describe it (NOT as the source
implements it): keep digits and only a LEADING `'+'`, dropping every
non-leading `'+'`. -/
def specStripPhone (s : List Char) : List Char :=
  match s with
  | '+' :: rest => '+' :: rest.filter Char.isDigit
  | _ => s.filter Char.isDigit

/-- The normalization algorithm exactly as C4's words describe it: the
claim's stripping step followed by the same three length/prefix branches. -/
def specFormatPhoneNumber (phone : List Char) : List Char :=
  let cleaned := specStripPhone phone
  if cleaned.length = 11 ∧ cleaned.head? = some '1' then '+' :: cleaned
  else if cleaned.length = 10 then '+' :: '1' :: cleaned
  else if cleaned.head? = some '+' then cleaned
  else phone

/-! ## Row shapes and row mappers (`types.ts`, `database.ts`) -/

/-- A raw message row as the driver returns it (`RawMessageRow` in
`types.ts`): nullable columns are `Option`s, numeric flags stay numeric. -/
structure RawMessageRow where
  rowid : ℤ
  text : Option String
  date : ℚ
  is_from_me : ℤ
  cache_has_attachments : ℤ
  handle_id : Option String
  chat_name : Option String
  chat_identifier : Option String
deriving DecidableEq

/-- JavaScript `a || b` for `a : string | null | undefined`: absent values
AND the empty string are falsy. -/
def jsOr (v : Option String) (d : String) : String :=
  match v with
  | none => d
  | some s => if s = "" then d else s

/-- The `Message` entity (`types.ts`).  The source renders the date through
`formatDate` (a locale-dependent `toLocaleString`); the model keeps the
wall-clock millisecond value that rendering is applied to. -/
structure Message where
  id : ℤ
  text : String
  dateMs : ℚ
  isFromMe : Bool
  hasAttachments : Bool
  contact : String
  chatName : String
deriving DecidableEq

/-- The `ConversationMessage` entity (`types.ts`). -/
structure ConversationMessage where
  id : ℤ
  text : String
  dateMs : ℚ
  isFromMe : Bool
  hasAttachments : Bool
  sender : String
deriving DecidableEq

/-- The row mapper inside `getRecentMessages` (`database.ts`). -/
def mapRecentRow (msg : RawMessageRow) : Message :=
  { id := msg.rowid
    text := jsOr msg.text "(attachment or empty)"
    dateMs := cocoaTimestampToDate msg.date
    isFromMe := msg.is_from_me == 1
    hasAttachments := msg.cache_has_attachments == 1
    contact := jsOr msg.handle_id "Unknown"
    chatName := jsOr msg.chat_name (jsOr msg.chat_identifier "Direct Message") }

/-- The row mapper inside `getConversation` (`database.ts`). -/
def mapConversationRow (msg : RawMessageRow) : ConversationMessage :=
  { id := msg.rowid
    text := jsOr msg.text "(attachment or empty)"
    dateMs := cocoaTimestampToDate msg.date
    isFromMe := msg.is_from_me == 1
    hasAttachments := msg.cache_has_attachments == 1
    sender := if msg.is_from_me == 1 then "You" else jsOr msg.handle_id "Them" }

/-- The row mapper inside `searchMessages` (`database.ts`); note its text
fallback is the empty string, not the placeholder. -/
def mapSearchRow (msg : RawMessageRow) : Message :=
  { id := msg.rowid
    text := jsOr msg.text ""
    dateMs := cocoaTimestampToDate msg.date
    isFromMe := msg.is_from_me == 1
    hasAttachments := msg.cache_has_attachments == 1
    contact := jsOr msg.handle_id "Unknown"
    chatName := jsOr msg.chat_name (jsOr msg.chat_identifier "Direct Message") }

/-- A concrete row with every optional field absent and `is_from_me = 0`,
used to evaluate the mappers. -/
def sampleRow : RawMessageRow :=
  { rowid := 1
    text := none
    date := 5
    is_from_me := 0
    cache_has_attachments := 0
    handle_id := none
    chat_name := none
    chat_identifier := none }

/-! ## SQL LIKE and the contact condition (`database.ts`) -/

/-- SQL `LIKE` pattern matching: `'%'` matches any sequence, `'_'` any
single character, anything else itself.  (SQLite's `LIKE` is additionally
ASCII case-insensitive; letter case plays no role in any claim.) -/
def likeMatch : List Char → List Char → Bool
  | [], s => s.isEmpty
  | '%' :: ps, s => s.tails.any fun suffix => likeMatch ps suffix
  | '_' :: ps, s =>
    match s with
    | [] => false
    | _ :: cs => likeMatch ps cs
  | p :: ps, s =>
    match s with
    | [] => false
    | c :: cs => (p == c) && likeMatch ps cs

/-- The `` `%${x}%` `` pattern built by `getRecentMessages`, `getConversation`
and `searchMessages` — the raw caller string between two `'%'`, with no
escaping. -/
def mkLikePattern (x : String) : String := "%" ++ x ++ "%"

/-- SQL `expr LIKE pattern` where `expr` may be NULL (NULL never matches). -/
def likeOpt (pattern : String) (v : Option String) : Bool :=
  match v with
  | none => false
  | some s => likeMatch pattern.toList s.toList

/-- SQL `expr = value` where `expr` may be NULL (NULL never matches). -/
def eqOpt (value : String) (v : Option String) : Bool :=
  match v with
  | none => false
  | some s => s == value

/-- The three-pattern contact condition
`(h.id LIKE '%contact%' OR h.id = formatted OR h.id LIKE '%formatted%')`
shared by `getRecentMessages` and `getConversation`. -/
def contactCondition (contact : String) (r : RawMessageRow) : Bool :=
  likeOpt (mkLikePattern contact) r.handle_id ||
  eqOpt (formatPhoneNumberStr contact) r.handle_id ||
  likeOpt (mkLikePattern (formatPhoneNumberStr contact)) r.handle_id

/-! ## Query pipelines (`database.ts`) -/

/-- `ORDER BY m.date ASC` as a relation on message rows. -/
def dateAsc (a b : RawMessageRow) : Prop := a.date ≤ b.date

/-- `ORDER BY m.date DESC` as a relation on message rows. -/
def dateDesc (a b : RawMessageRow) : Prop := b.date ≤ a.date

instance : DecidableRel dateAsc :=
  fun a b => inferInstanceAs (Decidable (a.date ≤ b.date))

instance : DecidableRel dateDesc :=
  fun a b => inferInstanceAs (Decidable (b.date ≤ a.date))

instance : IsTotal RawMessageRow dateAsc :=
  ⟨fun a b => le_total a.date b.date⟩

instance : IsTotal RawMessageRow dateDesc :=
  ⟨fun a b => le_total b.date a.date⟩

instance : IsTrans RawMessageRow dateAsc :=
  ⟨fun _ _ _ hab hbc => le_trans hab hbc⟩

instance : IsTrans RawMessageRow dateDesc :=
  ⟨fun _ _ _ hab hbc => le_trans hbc hab⟩

/-- The SQL of `getRecentMessages`: `WHERE m.date > cutoff` (and the contact
condition when a contact is given), `ORDER BY m.date DESC`, `LIMIT limit`.
The joined `message ⋈ handle ⋈ chat` relation is the `table` argument;
`Date.now()` is the explicit `now`. -/
def recentMessagesRows (table : List RawMessageRow) (now hours : ℚ)
    (contact : Option String) (limit : ℕ) : List RawMessageRow :=
  let cutoff := hoursAgoToCocoaTimestamp now hours
  ((table.filter fun r =>
      decide (cutoff < r.date) &&
        match contact with
        | none => true
        | some c => contactCondition c r).insertionSort dateDesc).take limit

/-- `getRecentMessages` from `database.ts`: the query pipeline followed by
its row mapper. -/
def getRecentMessages (table : List RawMessageRow) (now hours : ℚ)
    (contact : Option String) (limit : ℕ) : List Message :=
  (recentMessagesRows table now hours contact limit).map mapRecentRow

/-- The SQL of `getConversation`: `WHERE m.date > cutoff AND` the contact
condition, `ORDER BY m.date ASC`, `LIMIT limit`. -/
def conversationRows (table : List RawMessageRow) (now days : ℚ)
    (contact : String) (limit : ℕ) : List RawMessageRow :=
  let cutoff := daysAgoToCocoaTimestamp now days
  ((table.filter fun r =>
      decide (cutoff < r.date) && contactCondition contact r).insertionSort dateAsc).take limit

/-- `getConversation` from `database.ts`. -/
def getConversation (table : List RawMessageRow) (now days : ℚ)
    (contact : String) (limit : ℕ) : List ConversationMessage :=
  (conversationRows table now days contact limit).map mapConversationRow

/-- The SQL of `searchMessages`: `WHERE m.date > cutoff AND m.text LIKE
'%query%'`, `ORDER BY m.date DESC`, `LIMIT limit`. -/
def searchMessagesRows (table : List RawMessageRow) (now days : ℚ)
    (query : String) (limit : ℕ) : List RawMessageRow :=
  let cutoff := daysAgoToCocoaTimestamp now days
  ((table.filter fun r =>
      decide (cutoff < r.date) &&
        likeOpt (mkLikePattern query) r.text).insertionSort dateDesc).take limit

/-- `searchMessages` from `database.ts`. -/
def searchMessages (table : List RawMessageRow) (now days : ℚ)
    (query : String) (limit : ℕ) : List Message :=
  (searchMessagesRows table now days query limit).map mapSearchRow

/-! ## Chats (`database.ts`) -/

/-- A raw chat row (`RawChatRow` in `types.ts`), with the two subquery
columns (`message_count`, `last_message_date`, `last_message`) materialized
as the driver returns them. -/
structure RawChatRow where
  rowid : ℤ
  chat_identifier : String
  display_name : Option String
  service_name : String
  style : ℤ
  message_count : ℤ
  last_message_date : Option ℚ
  last_message : Option String
deriving DecidableEq

/-- The `Chat` entity (`types.ts`).  `lastMessageDateMs = none` stands for
the source's `"Unknown"` rendering; a present value is the wall-clock
millisecond time the source renders through `formatDate`. -/
structure Chat where
  id : ℤ
  identifier : String
  displayName : String
  service : String
  isGroupChat : Bool
  messageCount : ℤ
  lastMessageDateMs : Option ℚ
  lastMessage : String
deriving DecidableEq

/-- `truncate` from `utils.ts` (JS `substring` clamps a negative bound to 0,
as `ℕ` subtraction does). -/
def truncate (str : String) (maxLength : ℕ) : String :=
  if str.length ≤ maxLength then str
  else String.mk (str.toList.take (maxLength - 3)) ++ "..."

/-- The row mapper inside `listChats` (`database.ts`).  The two ternaries
test JS truthiness, so a `0` timestamp and an empty preview text fall back
like absent ones. -/
def mapChatRow (chat : RawChatRow) : Chat :=
  { id := chat.rowid
    identifier := chat.chat_identifier
    displayName := jsOr chat.display_name chat.chat_identifier
    service := chat.service_name
    isGroupChat := chat.style == 43
    messageCount := chat.message_count
    lastMessageDateMs :=
      match chat.last_message_date with
      | none => none
      | some t => if t = 0 then none else some (cocoaTimestampToDate t)
    lastMessage :=
      match chat.last_message with
      | none => "(no messages)"
      | some t => if t = "" then "(no messages)" else truncate t 50 }

/-- `ORDER BY last_message_date DESC` as a relation on chat rows.  A NULL
`last_message_date` is SQLite's smallest value, so it sorts last under DESC;
`Option ℚ` under that order is exactly `WithBot ℚ`. -/
def chatDesc (a b : RawChatRow) : Prop :=
  @LE.le (WithBot ℚ) _ b.last_message_date a.last_message_date

instance : DecidableRel chatDesc := fun a b =>
  inferInstanceAs (Decidable (@LE.le (WithBot ℚ) _ b.last_message_date a.last_message_date))

instance : IsTotal RawChatRow chatDesc :=
  ⟨fun a b => le_total (α := WithBot ℚ) b.last_message_date a.last_message_date⟩

instance : IsTrans RawChatRow chatDesc :=
  ⟨fun _ _ _ hab hbc => le_trans (α := WithBot ℚ) hbc hab⟩

/-- The SQL of `listChats`: optional `WHERE c.style != 43`, `ORDER BY
last_message_date DESC`, `LIMIT limit`. -/
def listChatsRows (chats : List RawChatRow) (limit : ℕ)
    (includeGroupChats : Bool) : List RawChatRow :=
  ((if includeGroupChats then chats
    else chats.filter fun c => decide (c.style ≠ 43)).insertionSort chatDesc).take limit

/-- `listChats` from `database.ts`. -/
def listChats (chats : List RawChatRow) (limit : ℕ)
    (includeGroupChats : Bool) : List Chat :=
  (listChatsRows chats limit includeGroupChats).map mapChatRow

/-! ## Prepared statements (`database.ts`) -/

/-- A positional SQL parameter value, as passed to the driver. -/
inductive SqlParam where
  | num (v : ℚ) : SqlParam
  | str (s : String) : SqlParam
deriving DecidableEq

/-- A prepared statement: the SQL text handed to `db.prepare` and the
positional parameter list handed to `.all`. -/
structure PreparedQuery where
  text : String
  params : List SqlParam
deriving DecidableEq

/-- The fixed SELECT/JOIN/WHERE prefix of `getRecentMessages` (whitespace
normalized to single spaces). -/
def recentMessagesBaseSql : String :=
  "SELECT m.rowid, m.text, m.date, m.is_from_me, m.cache_has_attachments, h.id as handle_id, c.display_name as chat_name, c.chat_identifier FROM message m LEFT JOIN handle h ON m.handle_id = h.rowid LEFT JOIN chat_message_join cmj ON m.rowid = cmj.message_id LEFT JOIN chat c ON cmj.chat_id = c.rowid WHERE m.date > ?"

/-- The clause `getRecentMessages` appends when a contact is supplied. -/
def contactClauseSql : String := " AND (h.id LIKE ? OR h.id = ? OR h.id LIKE ?)"

/-- The prepared statement `getRecentMessages` builds: the SQL text never
embeds the contact string; the contact reaches the driver only through the
parameter list, as `%contact%`, the formatted contact, and `%formatted%`. -/
def recentMessagesQuery (now hours : ℚ) (contact : Option String)
    (limit : ℚ) : PreparedQuery :=
  { text :=
      recentMessagesBaseSql ++
        (match contact with
         | none => ""
         | some _ => contactClauseSql) ++ " ORDER BY m.date DESC LIMIT ?"
    params :=
      [SqlParam.num (hoursAgoToCocoaTimestamp now hours)] ++
        (match contact with
         | none => []
         | some c =>
           [SqlParam.str (mkLikePattern c),
            SqlParam.str (formatPhoneNumberStr c),
            SqlParam.str (mkLikePattern (formatPhoneNumberStr c))]) ++
        [SqlParam.num limit] }

/-- The fixed SQL text of `searchMessages` (whitespace normalized). -/
def searchMessagesSql : String :=
  "SELECT m.rowid, m.text, m.date, m.is_from_me, m.cache_has_attachments, h.id as handle_id, c.display_name as chat_name, c.chat_identifier FROM message m LEFT JOIN handle h ON m.handle_id = h.rowid LEFT JOIN chat_message_join cmj ON m.rowid = cmj.message_id LEFT JOIN chat c ON cmj.chat_id = c.rowid WHERE m.date > ? AND m.text LIKE ? ORDER BY m.date DESC LIMIT ?"

/-- The prepared statement `searchMessages` builds: constant SQL text, the
query string only in the parameter list as `%query%`. -/
def searchMessagesQuery (now days : ℚ) (query : String) (limit : ℚ) :
    PreparedQuery :=
  { text := searchMessagesSql
    params :=
      [SqlParam.num (daysAgoToCocoaTimestamp now days),
       SqlParam.str (mkLikePattern query),
       SqlParam.num limit] }

/-- `sanitizeForSqlLike` from `utils.ts`: escape `%` and `_` with a
backslash.  Present in the utilities but NOT applied by any query builder. -/
def sanitizeForSqlLike (str : String) : String :=
  String.mk ((str.toList.map fun c =>
    if c = '%' ∨ c = '_' then ['\\', c] else [c]).flatten)

/-! ## Access diagnostics (`database.ts`) -/

/-- `DatabaseAccessResult` from `types.ts`. -/
structure DatabaseAccessResult where
  accessible : Bool
  error : Option String
deriving DecidableEq

/-- The filesystem/driver facts `checkDatabaseAccess` probes, made explicit:
whether the store file exists, whether `accessSync(R_OK)` throws (and with
which message), and whether opening the read-only connection throws. -/
structure DbEnv where
  dbExists : Bool
  readCheckError : Option String
  openError : Option String

/-- The not-found message of `checkDatabaseAccess`. -/
def notFoundMessage (dbPath : String) : String :=
  "Messages database not found at " ++ dbPath ++ ". Make sure Messages app has been used."

/-- The permission-remediation prefix of `checkDatabaseAccess`; the caught
error's text is appended to it. -/
def permissionMessage : String :=
  "Cannot access Messages database. Grant Full Disk Access to your terminal in System Preferences → Privacy & Security → Full Disk Access. Error: "

/-- `checkDatabaseAccess` from `database.ts`: existence check first, then
`accessSync` and the open probe inside one try/catch whose handler builds
the permission message.  Total — every raised error is converted into a
structured result. -/
def checkDatabaseAccess (dbPath : String) (env : DbEnv) : DatabaseAccessResult :=
  if env.dbExists = false then
    { accessible := false, error := some (notFoundMessage dbPath) }
  else
    match env.readCheckError with
    | some e => { accessible := false, error := some (permissionMessage ++ e) }
    | none =>
      match env.openError with
      | some e => { accessible := false, error := some (permissionMessage ++ e) }
      | none => { accessible := true, error := none }

/-! ## Theorems -/

/-- C1: for every native timestamp `t`, `cocoaTimestampToDate` divides `t` by
`10^9` exactly when `t > 10^12` (nanosecond case) and leaves it untouched when
`t ≤ 10^12` (second case); in both cases it then adds the epoch offset
978,307,200 seconds (the trailing `* 1000` only converts seconds to the
millisecond unit of the resulting wall-clock `Date`). -/
theorem cocoa_unit_disambiguation (t : ℚ) :
    (t > 10 ^ 12 → cocoaTimestampToDate t = (t / 10 ^ 9 + COCOA_EPOCH_DIFF) * 1000) ∧
    (t ≤ 10 ^ 12 → cocoaTimestampToDate t = (t + COCOA_EPOCH_DIFF) * 1000) := by
  constructor
  · intro h
    simp only [cocoaTimestampToDate, if_pos h]
  · intro h
    simp only [cocoaTimestampToDate, if_neg (not_lt.mpr h)]

/-- Witness for C1 at the concrete inputs `2·10^12` (nanosecond branch) and
`5` (second branch). -/
theorem cocoa_unit_disambiguation_witness :
    cocoaTimestampToDate (2 * 10 ^ 12) = (2 * 10 ^ 12 / 10 ^ 9 + COCOA_EPOCH_DIFF) * 1000 ∧
    cocoaTimestampToDate 5 = (5 + COCOA_EPOCH_DIFF) * 1000 :=
  ⟨(cocoa_unit_disambiguation (2 * 10 ^ 12)).1 (by norm_num),
   (cocoa_unit_disambiguation 5).2 (by norm_num)⟩

/-- C2 counterexample: the round trip is NOT within one second of `x` for
every wall-clock `x`.  At `x` = one second after the 2001 epoch
(978,307,201,000 ms), `fromWallClock` yields `10^9`, which falls below the
`10^12` threshold and is re-read as seconds, landing about 31.7 years away. -/
theorem timestamp_round_trip_counterexample :
    ¬ |cocoaTimestampToDate (dateToCocoaTimestamp 978307201000) - 978307201000| ≤ 1000 := by
  have h : cocoaTimestampToDate (dateToCocoaTimestamp 978307201000) = 1978307200000 := by
    norm_num [cocoaTimestampToDate, dateToCocoaTimestamp, COCOA_EPOCH_DIFF]
  rw [h]
  rw [abs_le]
  norm_num

/-- C2 (amended): for every wall-clock `x` strictly later than 1000 seconds
after the 2001 epoch (i.e. `x > 978,308,200,000` ms), the round trip
`cocoaTimestampToDate (dateToCocoaTimestamp x)` reproduces `x` exactly, hence
in particular to within one second.  (The unrestricted quantification fails:
see the counterexample at `x` = one second after the epoch.  Not every
earlier `x` misses — at the epoch itself the native value is 0 and the round
trip is again exact.) -/
theorem timestamp_round_trip_after_epoch (x : ℚ) (hx : 978308200000 < x) :
    cocoaTimestampToDate (dateToCocoaTimestamp x) = x ∧
    |cocoaTimestampToDate (dateToCocoaTimestamp x) - x| ≤ 1000 := by
  have hbig : dateToCocoaTimestamp x > 10 ^ 12 := by
    simp only [dateToCocoaTimestamp, COCOA_EPOCH_DIFF]
    nlinarith
  have heq : cocoaTimestampToDate (dateToCocoaTimestamp x) = x := by
    simp only [cocoaTimestampToDate]
    rw [if_pos hbig]
    simp only [dateToCocoaTimestamp, COCOA_EPOCH_DIFF]
    ring
  exact ⟨heq, by rw [heq, sub_self, abs_zero]; norm_num⟩

/-- Witness for the amended C2 at the concrete wall-clock time `10^13` ms. -/
theorem timestamp_round_trip_after_epoch_witness :
    cocoaTimestampToDate (dateToCocoaTimestamp (10 ^ 13)) = 10 ^ 13 ∧
    |cocoaTimestampToDate (dateToCocoaTimestamp (10 ^ 13)) - 10 ^ 13| ≤ 1000 :=
  timestamp_round_trip_after_epoch (10 ^ 13) (by norm_num)

/-- C5: evaluated at the same instant `now`, `hoursAgoToCocoaTimestamp` and
`daysAgoToCocoaTimestamp` are exactly `dateToCocoaTimestamp` applied to `now`
minus the duration (hours resp. days, in milliseconds). -/
theorem hours_days_ago_refine_date_conversion (now h d : ℚ) :
    hoursAgoToCocoaTimestamp now h = dateToCocoaTimestamp (now - h * 60 * 60 * 1000) ∧
    daysAgoToCocoaTimestamp now d = dateToCocoaTimestamp (now - d * 24 * 60 * 60 * 1000) :=
  ⟨rfl, rfl⟩

/-- C3: all three normalizers map `undefined` and `null` to the default, a
value `≤ 0` to the default, a positive value above the maximum to the maximum,
and an in-range positive value to its floor (limit kind) respectively to
itself unmodified (hours and days kinds).  The cases are tested in the
source's order, so `≤ 0` wins over `> max`.  All three are total Lean
functions, so no input raises an error. -/
theorem normalize_policy (v d m : ℚ) :
    normalizeLimit .undef d m = d ∧ normalizeLimit .null d m = d ∧
    normalizeHours .undef d m = d ∧ normalizeHours .null d m = d ∧
    normalizeDays .undef d m = d ∧ normalizeDays .null d m = d ∧
    (v ≤ 0 → normalizeLimit (.num v) d m = d ∧ normalizeHours (.num v) d m = d ∧
      normalizeDays (.num v) d m = d) ∧
    (0 < v → m < v → normalizeLimit (.num v) d m = m ∧ normalizeHours (.num v) d m = m ∧
      normalizeDays (.num v) d m = m) ∧
    (0 < v → v ≤ m → normalizeLimit (.num v) d m = (⌊v⌋ : ℚ) ∧
      normalizeHours (.num v) d m = v ∧ normalizeDays (.num v) d m = v) := by
  refine ⟨rfl, rfl, rfl, rfl, rfl, rfl, ?_, ?_, ?_⟩
  · intro h
    exact ⟨by simp [normalizeLimit, h], by simp [normalizeHours, h],
      by simp [normalizeDays, h]⟩
  · intro h0 hm
    have hn : ¬ v ≤ 0 := not_le.mpr h0
    exact ⟨by simp [normalizeLimit, hn, hm], by simp [normalizeHours, hn, hm],
      by simp [normalizeDays, hn, hm]⟩
  · intro h0 hm
    have hn : ¬ v ≤ 0 := not_le.mpr h0
    have hm' : ¬ v > m := not_lt.mpr hm
    exact ⟨by simp [normalizeLimit, hn, hm'], by simp [normalizeHours, hn, hm'],
      by simp [normalizeDays, hn, hm']⟩

/-- Witness for C3 at `v = 7/2`, `d = 10`, `m = 20` (in-range branch), plus
the default and clamp branches at `v = -5` and `v = 25`. -/
theorem normalize_policy_witness :
    normalizeLimit (.num (7/2)) 10 20 = 3 ∧ normalizeHours (.num (7/2)) 10 20 = 7/2 ∧
    normalizeLimit (.num (-5)) 10 20 = 10 ∧ normalizeLimit (.num 25) 10 20 = 20 := by
  have hin := (normalize_policy (7/2) 10 20).2.2.2.2.2.2.2.2 (by norm_num) (by norm_num)
  have hlo := ((normalize_policy (-5) 10 20).2.2.2.2.2.2.1 (by norm_num)).1
  have hhi := ((normalize_policy 25 10 20).2.2.2.2.2.2.2.1 (by norm_num) (by norm_num)).1
  refine ⟨?_, hin.2.1, hlo, hhi⟩
  rw [hin.1]
  norm_num

/-- C4 counterexample: the source keeps every `'+'`, not only a leading one.
On `"555123+4567"` the claim's algorithm strips the inner `'+'`, sees 10
digits and returns `"+15551234567"`, but the source's cleaned string is the
11-character `"555123+4567"` (not starting with `'1'` or `'+'`, length not
10), so the original is returned unchanged. -/
theorem format_phone_strip_counterexample :
    formatPhoneNumber "555123+4567".toList = "555123+4567".toList ∧
    specStripPhone "555123+4567".toList = "5551234567".toList ∧
    specFormatPhoneNumber "555123+4567".toList = "+15551234567".toList ∧
    formatPhoneNumber "555123+4567".toList ≠ specFormatPhoneNumber "555123+4567".toList := by
  decide

/-- C4 (amended): `formatPhoneNumber` first strips all characters except
digits and `'+'` signs wherever they occur; if the stripped result has 11
characters and begins with `'1'` it is returned prefixed with `'+'`; if it
has 10 characters it is returned prefixed with `'+1'`; if it begins with
`'+'` the stripped result is returned as-is; otherwise the original string is
returned unchanged (in particular email addresses pass through unaltered). -/
theorem format_phone_characterization (s : List Char) :
    ((cleanPhone s).length = 11 ∧ (cleanPhone s).head? = some '1' →
      formatPhoneNumber s = '+' :: cleanPhone s) ∧
    (¬((cleanPhone s).length = 11 ∧ (cleanPhone s).head? = some '1') →
      (cleanPhone s).length = 10 → formatPhoneNumber s = '+' :: '1' :: cleanPhone s) ∧
    (¬((cleanPhone s).length = 11 ∧ (cleanPhone s).head? = some '1') →
      (cleanPhone s).length ≠ 10 → (cleanPhone s).head? = some '+' →
      formatPhoneNumber s = cleanPhone s) ∧
    (¬((cleanPhone s).length = 11 ∧ (cleanPhone s).head? = some '1') →
      (cleanPhone s).length ≠ 10 → (cleanPhone s).head? ≠ some '+' →
      formatPhoneNumber s = s) := by
  refine ⟨?_, ?_, ?_, ?_⟩
  · intro h1
    simp only [formatPhoneNumber]
    rw [if_pos h1]
  · intro h1 h2
    simp only [formatPhoneNumber]
    rw [if_neg h1, if_pos h2]
  · intro h1 h2 h3
    simp only [formatPhoneNumber]
    rw [if_neg h1, if_neg h2, if_pos h3]
  · intro h1 h2 h3
    simp only [formatPhoneNumber]
    rw [if_neg h1, if_neg h2, if_neg h3]

/-- Witness for the amended C4, one concrete input per branch (the spec's own
examples). -/
theorem format_phone_characterization_witness :
    formatPhoneNumber "1-555-123-4567".toList = "+15551234567".toList ∧
    formatPhoneNumber "(555) 123-4567".toList = "+15551234567".toList ∧
    formatPhoneNumber "+44 20 7123 4567".toList = "+442071234567".toList ∧
    formatPhoneNumber "john@example.com".toList = "john@example.com".toList := by
  refine ⟨?_, ?_, ?_, ?_⟩
  · exact ((format_phone_characterization "1-555-123-4567".toList).1
      (by decide)).trans (by decide)
  · exact ((format_phone_characterization "(555) 123-4567".toList).2.1
      (by decide) (by decide)).trans (by decide)
  · exact ((format_phone_characterization "+44 20 7123 4567".toList).2.2.1
      (by decide) (by decide) (by decide)).trans (by decide)
  · exact (format_phone_characterization "john@example.com".toList).2.2.2
      (by decide) (by decide) (by decide)

/-- Every character of a cleaned string is a digit or `'+'`, so cleaning is
idempotent. -/
theorem cleanPhone_idem (s : List Char) : cleanPhone (cleanPhone s) = cleanPhone s :=
  List.filter_eq_self.mpr fun _ ha => List.of_mem_filter ha

/-- Cleaning keeps a kept head character in place. -/
theorem cleanPhone_cons (c : Char) (l : List Char) (h : isPhoneChar c = true) :
    cleanPhone (c :: l) = c :: cleanPhone l := by
  simp [cleanPhone, List.filter_cons, h]

/-- C10: `formatPhoneNumber` is idempotent. -/
theorem format_phone_idempotent (s : List Char) :
    formatPhoneNumber (formatPhoneNumber s) = formatPhoneNumber s := by
  by_cases h1 : (cleanPhone s).length = 11 ∧ (cleanPhone s).head? = some '1'
  · have hr : formatPhoneNumber s = '+' :: cleanPhone s := by
      simp only [formatPhoneNumber]; rw [if_pos h1]
    rw [hr]
    have hc : cleanPhone ('+' :: cleanPhone s) = '+' :: cleanPhone s := by
      rw [cleanPhone_cons '+' (cleanPhone s) (by decide), cleanPhone_idem]
    simp only [formatPhoneNumber, hc, List.head?_cons, List.length_cons, h1.1]
    simp
  by_cases h2 : (cleanPhone s).length = 10
  · have hr : formatPhoneNumber s = '+' :: '1' :: cleanPhone s := by
      simp only [formatPhoneNumber]; rw [if_neg h1, if_pos h2]
    rw [hr]
    have hc : cleanPhone ('+' :: '1' :: cleanPhone s) = '+' :: '1' :: cleanPhone s := by
      rw [cleanPhone_cons '+' _ (by decide), cleanPhone_cons '1' _ (by decide),
        cleanPhone_idem]
    simp only [formatPhoneNumber, hc, List.head?_cons, List.length_cons, h2]
    simp
  by_cases h3 : (cleanPhone s).head? = some '+'
  · have hr : formatPhoneNumber s = cleanPhone s := by
      simp only [formatPhoneNumber]; rw [if_neg h1, if_neg h2, if_pos h3]
    rw [hr]
    have hne : ¬((cleanPhone s).length = 11 ∧ (cleanPhone s).head? = some '1') := by
      rintro ⟨-, hh⟩
      rw [h3] at hh
      exact absurd hh (by decide)
    simp only [formatPhoneNumber, cleanPhone_idem]
    rw [if_neg hne, if_neg h2, if_pos h3]
  · have hr : formatPhoneNumber s = s := by
      simp only [formatPhoneNumber]; rw [if_neg h1, if_neg h2, if_neg h3]
    rw [hr]
    exact hr

/-- C6: `getConversation` returns rows ordered oldest-first by native
timestamp (`m.date ASC`), `getRecentMessages` and `searchMessages` return
rows ordered newest-first (`m.date DESC`), `listChats` returns chats ordered
by most-recent-message time descending, and every result is bounded by the
given limit. -/
theorem query_result_ordering (mtable : List RawMessageRow) (ctable : List RawChatRow)
    (now hours days : ℚ) (contact : Option String) (c q : String) (limit : ℕ)
    (includeGroupChats : Bool) :
    (conversationRows mtable now days c limit).Pairwise dateAsc ∧
    (recentMessagesRows mtable now hours contact limit).Pairwise dateDesc ∧
    (searchMessagesRows mtable now days q limit).Pairwise dateDesc ∧
    (listChatsRows ctable limit includeGroupChats).Pairwise chatDesc ∧
    (getConversation mtable now days c limit).length ≤ limit ∧
    (getRecentMessages mtable now hours contact limit).length ≤ limit ∧
    (searchMessages mtable now days q limit).length ≤ limit ∧
    (listChats ctable limit includeGroupChats).length ≤ limit := by
  refine ⟨?_, ?_, ?_, ?_, ?_, ?_, ?_, ?_⟩
  · exact (List.sorted_insertionSort dateAsc _).sublist (List.take_sublist _ _)
  · exact (List.sorted_insertionSort dateDesc _).sublist (List.take_sublist _ _)
  · exact (List.sorted_insertionSort dateDesc _).sublist (List.take_sublist _ _)
  · exact (List.sorted_insertionSort chatDesc _).sublist (List.take_sublist _ _)
  · simp [getConversation, conversationRows]
  · simp [getRecentMessages, recentMessagesRows]
  · simp [searchMessages, searchMessagesRows]
  · simp [listChats, listChatsRows]

/-- C7: `checkDatabaseAccess` never raises; a missing store file yields the
not-found message (which asks whether the Messages app has been used), a
failing read-permission check or open probe yields the Full-Disk-Access
remediation message with the underlying error text appended, the first
failing step decides the result, and `accessible = true` exactly when all
three steps pass. -/
theorem access_diagnostics (dbPath : String) (env : DbEnv) :
    (env.dbExists = false →
      checkDatabaseAccess dbPath env =
        { accessible := false, error := some (notFoundMessage dbPath) }) ∧
    (env.dbExists = true → ∀ e, env.readCheckError = some e →
      checkDatabaseAccess dbPath env =
        { accessible := false, error := some (permissionMessage ++ e) }) ∧
    (env.dbExists = true → env.readCheckError = none → ∀ e, env.openError = some e →
      checkDatabaseAccess dbPath env =
        { accessible := false, error := some (permissionMessage ++ e) }) ∧
    ((checkDatabaseAccess dbPath env).accessible = true ↔
      env.dbExists = true ∧ env.readCheckError = none ∧ env.openError = none) := by
  obtain ⟨ex, rc, oe⟩ := env
  refine ⟨?_, ?_, ?_, ?_⟩
  · intro h
    cases h
    rfl
  · intro h e he
    cases h
    cases he
    rfl
  · intro h hr e he
    cases h
    cases hr
    cases he
    rfl
  · cases ex <;> rcases rc with - | e₁ <;> rcases oe with - | e₂ <;>
      simp [checkDatabaseAccess]

/-- Witness for C7: each of the three failure steps and the success case at
concrete environments. -/
theorem access_diagnostics_witness :
    checkDatabaseAccess "chat.db" ⟨false, none, none⟩ =
      { accessible := false, error := some (notFoundMessage "chat.db") } ∧
    checkDatabaseAccess "chat.db" ⟨true, some "EPERM", none⟩ =
      { accessible := false, error := some (permissionMessage ++ "EPERM") } ∧
    checkDatabaseAccess "chat.db" ⟨true, none, some "unable to open"⟩ =
      { accessible := false, error := some (permissionMessage ++ "unable to open") } ∧
    (checkDatabaseAccess "chat.db" ⟨true, none, none⟩).accessible = true :=
  ⟨(access_diagnostics "chat.db" ⟨false, none, none⟩).1 rfl,
   (access_diagnostics "chat.db" ⟨true, some "EPERM", none⟩).2.1 rfl "EPERM" rfl,
   (access_diagnostics "chat.db" ⟨true, none, some "unable to open"⟩).2.2.1 rfl rfl
     "unable to open" rfl,
   (access_diagnostics "chat.db" ⟨true, none, none⟩).2.2.2.mpr ⟨rfl, rfl, rfl⟩⟩

/-- C8: the caller's search/contact string never reaches the SQL text — the
text is the same for any two strings — and it appears in the parameter list
only as a value, with substring patterns exactly `'%' ++ s ++ '%'` and no
escaping (`sanitizeForSqlLike` is not applied, so the escaped pattern
differs), hence literal `%` and `_` in `s` keep their wildcard meaning under
`LIKE` matching, as the two concrete matches show. -/
theorem like_patterns_parameterized (now hours days limit : ℚ) (s t q : String) :
    (recentMessagesQuery now hours (some s) limit).text =
      (recentMessagesQuery now hours (some t) limit).text ∧
    (searchMessagesQuery now days q limit).text = searchMessagesSql ∧
    (recentMessagesQuery now hours (some s) limit).params =
      [SqlParam.num (hoursAgoToCocoaTimestamp now hours),
       SqlParam.str ("%" ++ s ++ "%"),
       SqlParam.str (formatPhoneNumberStr s),
       SqlParam.str ("%" ++ formatPhoneNumberStr s ++ "%"),
       SqlParam.num limit] ∧
    (searchMessagesQuery now days q limit).params =
      [SqlParam.num (daysAgoToCocoaTimestamp now days),
       SqlParam.str ("%" ++ q ++ "%"),
       SqlParam.num limit] ∧
    mkLikePattern "a%b" ≠ mkLikePattern (sanitizeForSqlLike "a%b") ∧
    likeMatch (mkLikePattern "a%b").toList "xaZZby".toList = true ∧
    likeMatch (mkLikePattern "a_c").toList "zabcz".toList = true :=
  ⟨rfl, rfl, rfl, rfl, by decide, by decide, by decide⟩

/-- C9 counterexample: the fallbacks are NOT uniform across the three row
mappers.  On a row with every optional field absent and `is_from_me = 0`,
the conversation mapper labels the sender `"Them"`, not `"Unknown"`, and the
search mapper's text fallback is the empty string, not a placeholder. -/
theorem row_mapper_uniformity_counterexample :
    (mapConversationRow sampleRow).sender = "Them" ∧
    (mapConversationRow sampleRow).sender ≠ "Unknown" ∧
    (mapSearchRow sampleRow).text = "" ∧
    (mapSearchRow sampleRow).text ≠ "(attachment or empty)" ∧
    (mapRecentRow sampleRow).contact = "Unknown" := by
  refine ⟨rfl, ?_, rfl, ?_, rfl⟩ <;> decide

/-- C9 (amended): all three row mappers are total on optional fields, with
these fallbacks: absent text maps to `"(attachment or empty)"` in
`getRecentMessages` and `getConversation` and to `""` in `searchMessages`;
absent origin handle maps to `"Unknown"` in `getRecentMessages` and
`searchMessages`, while `getConversation` labels the sender `"You"` for own
messages and `"Them"` when the handle is absent; an absent chat display name
falls back to the chat identifier and then to `"Direct Message"` in
`getRecentMessages` and `searchMessages` (conversation rows carry no chat
label). -/
theorem row_mapper_fallbacks (r : RawMessageRow) :
    (r.text = none →
      (mapRecentRow r).text = "(attachment or empty)" ∧
      (mapConversationRow r).text = "(attachment or empty)" ∧
      (mapSearchRow r).text = "") ∧
    (r.handle_id = none →
      (mapRecentRow r).contact = "Unknown" ∧ (mapSearchRow r).contact = "Unknown") ∧
    (r.is_from_me = 1 → (mapConversationRow r).sender = "You") ∧
    (r.is_from_me ≠ 1 → r.handle_id = none → (mapConversationRow r).sender = "Them") ∧
    (r.chat_name = none → r.chat_identifier = none →
      (mapRecentRow r).chatName = "Direct Message" ∧
      (mapSearchRow r).chatName = "Direct Message") ∧
    (r.chat_name = none → ∀ ci, r.chat_identifier = some ci → ci ≠ "" →
      (mapRecentRow r).chatName = ci ∧ (mapSearchRow r).chatName = ci) := by
  refine ⟨?_, ?_, ?_, ?_, ?_, ?_⟩
  · intro h
    simp [mapRecentRow, mapConversationRow, mapSearchRow, jsOr, h]
  · intro h
    simp [mapRecentRow, mapSearchRow, jsOr, h]
  · intro h
    simp [mapConversationRow, h]
  · intro h hh
    simp [mapConversationRow, jsOr, h, hh]
  · intro h hci
    simp [mapRecentRow, mapSearchRow, jsOr, h, hci]
  · intro h ci hci hne
    simp [mapRecentRow, mapSearchRow, jsOr, h, hci, hne]

/-- Witness for the amended C9 at two concrete rows: `sampleRow` (everything
absent, received) and a sent row with an empty-string-free chat identifier. -/
theorem row_mapper_fallbacks_witness :
    (mapRecentRow sampleRow).text = "(attachment or empty)" ∧
    (mapSearchRow sampleRow).text = "" ∧
    (mapRecentRow sampleRow).contact = "Unknown" ∧
    (mapConversationRow sampleRow).sender = "Them" ∧
    (mapRecentRow sampleRow).chatName = "Direct Message" ∧
    (mapConversationRow ⟨2, some "hi", 5, 1, 0, some "h", none, some "c1"⟩).sender = "You" ∧
    (mapRecentRow ⟨2, some "hi", 5, 1, 0, some "h", none, some "c1"⟩).chatName = "c1" := by
  have h1 := (row_mapper_fallbacks sampleRow).1 rfl
  have h2 := ((row_mapper_fallbacks sampleRow).2.1 rfl)
  have h3 := (row_mapper_fallbacks sampleRow).2.2.2.1 (by decide) rfl
  have h4 := ((row_mapper_fallbacks sampleRow).2.2.2.2.1 rfl rfl).1
  have h5 := (row_mapper_fallbacks ⟨2, some "hi", 5, 1, 0, some "h", none, some "c1"⟩).2.2.1 rfl
  have h6 := ((row_mapper_fallbacks
    ⟨2, some "hi", 5, 1, 0, some "h", none, some "c1"⟩).2.2.2.2.2 rfl "c1" rfl (by decide)).1
  exact ⟨h1.1, h1.2.2, h2.1, h3, h4, h5, h6⟩

end IMessage
